import Mathlib

/-!
Shallow embedding of the zignasa-backend registration and payment flows.

The mounted routes are embedded from the source:
  - POST /registration            (registration router, creates order + team)
  - POST /razorpay/verify-payment (razorpayRoute.js, conditional finalization)
  - POST /razorpay/create-order   (razorpayRoute.js)

The Supabase store is modelled as an explicit in-memory state (lists of team
and registration rows plus a fresh-id counter); the Razorpay client and the
HMAC primitive are modelled as oracles passed in as parameters.  JavaScript
request fields are modelled as Option values, with JS truthiness made
explicit (absent = none, empty string and the number 0 are falsy).
-/

namespace Zignasa

/-- JS truthiness of an optional string field: absent or empty is falsy. -/
def jsTruthyS : Option String → Bool
  | none => false
  | some s => !(s == "")

/-- JS truthiness of an optional numeric field: absent or 0 is falsy. -/
def jsTruthyI : Option Int → Bool
  | none => false
  | some n => !(n == 0)

/-- JS a || b on optional string values: first operand when truthy, else second. -/
def jsOr (a b : Option String) : Option String :=
  if jsTruthyS a then a else b

/-- JS string interpolation of a possibly-undefined value. -/
def optShow : Option String → String
  | none => "undefined"
  | some s => s

/-- Does the second list start with the first? -/
def startsList [BEq α] : List α → List α → Bool
  | [], _ => true
  | _ :: _, [] => false
  | p :: ps, x :: xs => p == x && startsList ps xs

/-- Does the pattern occur as a contiguous run of the list? -/
def containsList [BEq α] (pat : List α) : List α → Bool
  | [] => startsList pat []
  | x :: xs => startsList pat (x :: xs) || containsList pat xs

/-- JS String.prototype.includes, over the underlying character lists. -/
def jsIncludes (s sub : String) : Bool :=
  containsList sub.data s.data

/-- JS String.prototype.trim, over the underlying character list. -/
def jsTrim (s : String) : String :=
  ⟨((s.data.dropWhile Char.isWhitespace).reverse.dropWhile Char.isWhitespace).reverse⟩

/-- Membership test with duplicate detection, mirroring a JS Set seen-check. -/
def listHasDup [BEq α] : List α → Bool
  | [] => false
  | x :: xs => xs.any (fun y => y == x) || listHasDup xs

/-- One row of the teams table. -/
structure Team where
  id : Int
  team_name : String
  domain : String
  team_size : Nat
  razorpay_order_id : String
  razorpay_payment_id : Option String
  amount_in_paise : Nat
  payment_status : String
  payment_initiated_at : Option String
  payment_verified_at : Option String
deriving DecidableEq, Repr

/-- One row of the registrations (member) table. -/
structure Registration where
  team_id : Int
  name : String
  email : String
  phone : String
  college : String
  role : String
  roll_number : Option String
deriving DecidableEq, Repr

/-- The relational store: teams, member registrations, and the id sequence. -/
structure Db where
  teams : List Team
  registrations : List Registration
  nextId : Int
deriving DecidableEq, Repr

/-- The empty store at deployment time. -/
def Db.init : Db := ⟨[], [], 1⟩

/-- Row condition of the conditional update in verify-payment:
`.eq(id, teamId).eq(payment_status, Initiated)`. -/
def updMatches (tid : Int) (t : Team) : Bool :=
  t.id == tid && t.payment_status == "Initiated"

/-- The update payload applied by verify-payment: status Completed,
payment id recorded, verification timestamp recorded. -/
def completeTeam (pid now : String) (t : Team) : Team :=
  { t with payment_status := "Completed",
           razorpay_payment_id := some pid,
           payment_verified_at := some now }

/-- The conditional update statement: returns the new table and the
affected-row count (the length of `.select()` on the update). -/
def updateTeamsCond (tid : Int) (pid now : String) (teams : List Team) :
    List Team × Nat :=
  (teams.map (fun t => if updMatches tid t then completeTeam pid now t else t),
   (teams.filter (updMatches tid)).length)

/-- Duplicate or already-present email among inserted member rows, against
the unique email constraint of the registrations table. -/
def regEmailTaken (db : Db) (rows : List Registration) : Bool :=
  rows.any (fun r => db.registrations.any (fun e => e.email == r.email)) ||
    listHasDup (rows.map (fun r => r.email))

/-- Duplicate or already-present roll number among inserted member rows,
against the unique roll_number constraint (null values never conflict). -/
def regRollTaken (db : Db) (rows : List Registration) : Bool :=
  (rows.any (fun r => match r.roll_number with
    | none => false
    | some v => db.registrations.any (fun e => e.roll_number == some v))) ||
    listHasDup (rows.filterMap (fun r => r.roll_number))

/-- Batch insert into the registrations table.  Models the store contract of
spec section 6: unique constraints on email and on the optional roll
identifier; the batch is inserted atomically or rejected with a duplicate-key
error message. -/
def insertRegistrations (db : Db) (rows : List Registration) :
    Except String Db :=
  if regEmailTaken db rows || regRollTaken db rows then
    .error "duplicate key value violates unique constraint"
  else
    .ok { db with registrations := db.registrations ++ rows }

/-- A member object in the verify-payment request body.  The roll number may
arrive camelCase or snake_case; either may be an empty (falsy) string. -/
structure VMember where
  name : String
  email : String
  phone : String
  college : String
  role : String
  rollNumber : Option String
  roll_number : Option String
deriving DecidableEq, Repr

/-- The verify-payment request body. -/
structure VerifyReq where
  teamId : Option Int
  razorpayPaymentId : Option String
  razorpayOrderId : Option String
  razorpaySignature : Option String
  members : Option (List VMember)
deriving DecidableEq, Repr

/-- The snake_case fallback mutation performed by the rollNumber loop:
if m.rollNumber is falsy and m.roll_number is truthy, copy it over. -/
def normMember (m : VMember) : VMember :=
  if !jsTruthyS m.rollNumber && jsTruthyS m.roll_number then
    { m with rollNumber := m.roll_number }
  else m

/-- Index of the first member whose (normalized) rollNumber is falsy. -/
def firstMissingRoll : Nat → List VMember → Option Nat
  | _, [] => none
  | i, m :: ms =>
    if !jsTruthyS (normMember m).rollNumber then some i
    else firstMissingRoll (i + 1) ms

/-- The member row built by the verify-payment insert:
roll_number is member.rollNumber || member.roll_number after normalization. -/
def toRegRow (tid : Int) (m : VMember) : Registration :=
  { team_id := tid, name := m.name, email := m.email, phone := m.phone,
    college := m.college, role := m.role,
    roll_number := jsOr (normMember m).rollNumber (normMember m).roll_number }

/-- JSON body of a verify-payment response. -/
structure VData where
  teamId : Int
  paymentStatus : String
  paymentId : String
  orderId : String
  memberCount : Nat
deriving DecidableEq, Repr

/-- A verify-payment HTTP response. -/
structure VResp where
  status : Nat
  success : Bool
  message : String
  details : Option String := none
  error : Option String := none
  vdata : Option VData := none
deriving DecidableEq, Repr

/-- Ambient configuration of the verify-payment handler: the keyed hash
primitive, the shared secret, NODE_ENV, and the current timestamp. -/
structure VerifyCtx where
  hmac : String → String → String
  secret : String
  mode : String
  now : String

/-- Outcome of one verify-payment call: response, resulting store, and the
number of database read and write statements issued. -/
structure VResult where
  resp : VResp
  db : Db
  reads : Nat
  writes : Nat

/-- The finalization tail of verify-payment, entered once every check up to
the order-identity gate has passed: the conditional update of
(id, payment_status = Initiated) with its affected-row count inspected, the
409 conflict when zero rows matched, then the member batch insert with its
duplicate-key branch. -/
def finalizeTeam (ctx : VerifyCtx) (db : Db) (tid : Int) (pid oid : String)
    (ms : List VMember) : VResult :=
  let upd := updateTeamsCond tid pid ctx.now db.teams
  let db1 : Db := { db with teams := upd.1 }
  if upd.2 == 0 then
    ⟨{ status := 409, success := false,
       message := "Payment already verified for this team" },
     db1, 1, 1⟩
  else
    let rows := ms.map (toRegRow tid)
    match insertRegistrations db1 rows with
    | .error msg =>
      if jsIncludes msg "duplicate key value" || jsIncludes msg "unique" then
        ⟨{ status := 409, success := false,
           message := "Some registrations already exist (unique constraint)",
           details := if ctx.mode == "development" then some msg else none },
         db1, 1, 2⟩
      else
        ⟨{ status := 500, success := false,
           message := "An error occurred during payment verification",
           error := if ctx.mode == "development" then some msg else none },
         db1, 1, 2⟩
    | .ok db2 =>
      ⟨{ status := 200, success := true,
         message := "Payment verified and team registration completed",
         vdata := some ⟨tid, "Completed", pid, oid, ms.length⟩ },
       db2, 1, 2⟩

/-- POST /razorpay/verify-payment (routes/razorpayRoute.js).
Steps in source order: field presence, members array, per-member rollNumber,
HMAC signature, team fetch by id, order-id equality, then the finalization
tail above. -/
def verifyPayment (ctx : VerifyCtx) (db : Db) (req : VerifyReq) : VResult :=
  if !(jsTruthyI req.teamId && jsTruthyS req.razorpayPaymentId &&
       jsTruthyS req.razorpayOrderId && jsTruthyS req.razorpaySignature) then
    ⟨{ status := 400, success := false,
       message := "Missing required payment verification fields" }, db, 0, 0⟩
  else
    match req.members with
    | none =>
      ⟨{ status := 400, success := false,
         message := "Members array is required" }, db, 0, 0⟩
    | some ms =>
      if ms.length == 0 then
        ⟨{ status := 400, success := false,
           message := "Members array is required" }, db, 0, 0⟩
      else
        match firstMissingRoll 0 ms with
        | some i =>
          ⟨{ status := 400, success := false,
             message := "Member " ++ toString (i + 1) ++ " is missing rollNumber" },
           db, 0, 0⟩
        | none =>
          let tid := req.teamId.getD 0
          let pid := req.razorpayPaymentId.getD ""
          let oid := req.razorpayOrderId.getD ""
          let sig := req.razorpaySignature.getD ""
          let expectedSignature := ctx.hmac ctx.secret (oid ++ "|" ++ pid)
          if expectedSignature != sig then
            ⟨{ status := 400, success := false,
               message := "Invalid payment signature. Possible fraud attempt." },
             db, 0, 0⟩
          else
            match db.teams.find? (fun t => t.id == tid) with
            | none =>
              ⟨{ status := 404, success := false,
                 message := "Team not found" }, db, 1, 0⟩
            | some team =>
              if team.razorpay_order_id != oid then
                ⟨{ status := 400, success := false,
                   message := "Order ID mismatch" }, db, 1, 0⟩
              else
                finalizeTeam ctx db tid pid oid ms

/-- A member object in the registration request body; every field may be
absent or empty (falsy). -/
structure RMember where
  name : Option String
  email : Option String
  phone : Option String
  college : Option String
  role : Option String
deriving DecidableEq, Repr

/-- The registration request body. -/
structure RegReq where
  teamName : Option String
  domain : Option String
  members : Option (List RMember)
deriving DecidableEq, Repr

/-- The closed set of accepted domains. -/
def validDomains : List String := ["Web Dev", "Agentic AI", "UI/UX"]

/-- Dynamic field access used by the required-fields check. -/
def rmemberField (m : RMember) : String → Option String
  | "name" => m.name
  | "email" => m.email
  | "phone" => m.phone
  | "college" => m.college
  | "role" => m.role
  | _ => none

/-- requiredFields.filter(field falsy) for one member, in source order. -/
def missingFields (m : RMember) : List String :=
  ["name", "email", "phone", "college", "role"].filter
    (fun f => !jsTruthyS (rmemberField m f))

/-- A registration response JSON payment-details object. -/
structure PayDetails where
  orderId : String
  amount : Nat
  amountInPaise : Nat
  currency : String
  chargePerMember : Nat
deriving DecidableEq, Repr

/-- A registration response JSON data object. -/
structure RegData where
  teamId : Int
  teamName : String
  domain : String
  memberCount : Nat
  paymentDetails : PayDetails
deriving DecidableEq, Repr

/-- A registration HTTP response. -/
structure RegResp where
  status : Nat
  success : Bool
  message : String
  existingEmails : Option (List String) := none
  error : Option String := none
  rdata : Option RegData := none
deriving DecidableEq, Repr

/-- A 400 validation rejection with a message and no other fields. -/
def err400 (msg : String) : RegResp :=
  { status := 400, success := false, message := msg }

/-- JS includes of a possibly-undefined role in the allowed-roles array. -/
def roleAllowed (r : Option String) : Bool :=
  match r with
  | some s => ["Team Lead", "Member"].contains s
  | none => false

/-- The per-member validation loop: duplicate email against the seen set,
then required fields, then allowed role — in source order, tracking the
member index for messages. -/
def checkMembers (i : Nat) (seen : List (Option String)) :
    List RMember → Option RegResp
  | [] => none
  | m :: rest =>
    if seen.any (fun e => e == m.email) then
      some (err400 ("Duplicate email found: " ++ optShow m.email))
    else
      let missing := missingFields m
      if missing.length > 0 then
        some (err400 ("Member " ++ toString (i + 1) ++
          " is missing required fields: " ++ String.intercalate ", " missing))
      else if !roleAllowed m.role then
        some (err400 ("Invalid role for member " ++ toString (i + 1) ++
          ". Must be \x27Team Lead\x27 or \x27Member\x27"))
      else
        checkMembers (i + 1) (m.email :: seen) rest

/-- The pre-database validation phase of POST /registration, returning the
first rejection in source order, or none when every check passes. -/
def regValidate (req : RegReq) : Option RegResp :=
  match req.teamName with
  | none => some (err400 "Missing or invalid teamName")
  | some tn =>
    if jsTrim tn == "" then some (err400 "Missing or invalid teamName")
    else
      match req.domain with
      | none =>
        some (err400 ("Invalid domain. Must be one of: " ++
          String.intercalate ", " validDomains))
      | some d =>
        if !(validDomains.contains d) then
          some (err400 ("Invalid domain. Must be one of: " ++
            String.intercalate ", " validDomains))
        else
          match req.members with
          | none => some (err400 "Team must have 1 to 5 members")
          | some ms =>
            if ms.length < 1 || ms.length > 5 then
              some (err400 "Team must have 1 to 5 members")
            else
              match ms.find? (fun m => m.role == some "Team Lead") with
              | none => some (err400 "Team must have exactly one Team Lead")
              | some _ =>
                if (ms.filter (fun m => m.role == some "Team Lead")).length > 1 then
                  some (err400 "Only one Team Lead is allowed per team")
                else
                  checkMembers 0 [] ms

/-- Ambient configuration of the registration handler: the parsed
REGISTRATION_CHARGE_PER_MEMBER constant, whether the Razorpay client was
initialized, the outcome of the orders.create call (ok carries the order id),
NODE_ENV, and the current timestamp. -/
structure RegCtx where
  chargePerMember : Nat
  razorpayConfigured : Bool
  orderResult : Except String String
  mode : String
  now : String

/-- Outcome of one registration call: response, resulting store, database
reads issued, external order-creation calls issued, and the minor-unit
amounts transmitted to the payment service by those calls. -/
structure RegResult where
  resp : RegResp
  db : Db
  reads : Nat
  orderCalls : Nat
  orderAmounts : List Nat

/-- POST /registration (the mounted registration router).
After validation: team-name existence lookup, already-registered email
lookup, amount computation (members × charge, rupees; ×100 paise), the
external order creation, then the team insert with status Initiated carrying
the created order id. -/
def registrationRoute (ctx : RegCtx) (db : Db) (req : RegReq) : RegResult :=
  match regValidate req with
  | some e => ⟨e, db, 0, 0, []⟩
  | none =>
    let tn := req.teamName.getD ""
    let d := req.domain.getD ""
    let ms := req.members.getD []
    match db.teams.find? (fun t => t.team_name == tn) with
    | some _ => ⟨err400 "Team name already exists", db, 1, 0, []⟩
    | none =>
      let emails := ms.map (fun m => m.email)
      let existing := db.registrations.filter
        (fun r => emails.any (fun e => e == some r.email))
      if existing.length > 0 then
        ⟨{ status := 400, success := false,
           message := "Some emails are already registered",
           existingEmails := some (existing.map (fun r => r.email)) },
         db, 2, 0, []⟩
      else
        let totalAmountInRupees := ms.length * ctx.chargePerMember
        let totalAmountInPaise := totalAmountInRupees * 100
        if !ctx.razorpayConfigured then
          ⟨{ status := 500, success := false,
             message := "Payment gateway not initialized. Check server configuration." },
           db, 2, 0, []⟩
        else
          match ctx.orderResult with
          | .error m =>
            ⟨{ status := 500, success := false,
               message := "Failed to create payment order",
               error := if ctx.mode == "development" then some m else none },
             db, 2, 1, [totalAmountInPaise]⟩
          | .ok orderId =>
            let t : Team :=
              { id := db.nextId, team_name := tn, domain := d,
                team_size := ms.length, razorpay_order_id := orderId,
                razorpay_payment_id := none,
                amount_in_paise := totalAmountInPaise,
                payment_status := "Initiated",
                payment_initiated_at := some ctx.now,
                payment_verified_at := none }
            ⟨{ status := 201, success := true,
               message := "Payment order created. Please complete payment to finalize registration.",
               rdata := some ⟨db.nextId, tn, d, ms.length,
                 ⟨orderId, totalAmountInRupees, totalAmountInPaise, "INR",
                  ctx.chargePerMember⟩⟩ },
             { db with teams := db.teams ++ [t], nextId := db.nextId + 1 },
             2, 1, [totalAmountInPaise]⟩

/-- A create-order HTTP response. -/
structure OrderResp where
  status : Nat
  error : Option String := none
  details : Option String := none
  orderId : Option String := none
deriving DecidableEq, Repr

/-- POST /razorpay/create-order (routes/razorpayRoute.js).
The amount is modelled at integer rupees, where the JS Number conversion and
Math.round(amount * 100) are exact.  The catch branch returns the underlying
error message in the details field unconditionally: it is not gated on
NODE_ENV, unlike every other handler in the repository. -/
def createOrderRoute (configured : Bool) (amount : Option Int)
    (orderResult : Except String String) : OrderResp :=
  if !configured then
    { status := 500,
      error := some "Razorpay not initialized. Check server environment variables." }
  else
    match amount with
    | none => { status := 400, error := some "amount is required in request body (in rupees)." }
    | some a =>
      if a ≤ 0 then
        { status := 400, error := some "amount must be a positive number." }
      else
        match orderResult with
        | .ok oid => { status := 201, orderId := some oid }
        | .error m =>
          { status := 500, error := some "failed to create order", details := some m }

/-! ### Helper lemmas -/

theorem jsTruthyS_some (s : String) : jsTruthyS (some s) = !(s == "") := rfl

theorem jsTruthyI_some (n : Int) : jsTruthyI (some n) = !(n == 0) := rfl

/-- C10: a verification request with any falsy identifier field (absent,
empty string, or the number 0) is rejected with the missing-fields message
before any database access, with the store unchanged, and the outcome does
not depend on the signature context at all; in particular teamId 0 yields
this validation error, never a not-found. -/
theorem verify_falsy_fields_rejected_before_io
    (ctx ctx2 : VerifyCtx) (db : Db) (req : VerifyReq)
    (hfalsy : (jsTruthyI req.teamId && jsTruthyS req.razorpayPaymentId &&
      jsTruthyS req.razorpayOrderId && jsTruthyS req.razorpaySignature) = false) :
    (verifyPayment ctx db req).resp.status = 400 ∧
    (verifyPayment ctx db req).resp.message =
      "Missing required payment verification fields" ∧
    (verifyPayment ctx db req).db = db ∧
    (verifyPayment ctx db req).reads = 0 ∧
    (verifyPayment ctx db req).writes = 0 ∧
    verifyPayment ctx2 db req = verifyPayment ctx db req := by
  simp [verifyPayment, hfalsy]

/-- Witness for C10: a store actually containing a team with id 0, and a
request naming teamId 0 with all other fields present: rejected as a
validation error (400), not as not-found, with nothing touched. -/
theorem verify_falsy_fields_rejected_before_io_witness :
    (verifyPayment ⟨fun _ m => m, "sec", "production", "t1"⟩
      ⟨[⟨0, "Alpha", "Web Dev", 1, "order_A", none, 10000, "Initiated", some "t0", none⟩], [], 1⟩
      ⟨some 0, some "pay_1", some "order_A", some "sigv", some []⟩).resp.status = 400 ∧
    (verifyPayment ⟨fun _ m => m, "sec", "production", "t1"⟩
      ⟨[⟨0, "Alpha", "Web Dev", 1, "order_A", none, 10000, "Initiated", some "t0", none⟩], [], 1⟩
      ⟨some 0, some "pay_1", some "order_A", some "sigv", some []⟩).resp.message =
      "Missing required payment verification fields" ∧
    (verifyPayment ⟨fun _ m => m, "sec", "production", "t1"⟩
      ⟨[⟨0, "Alpha", "Web Dev", 1, "order_A", none, 10000, "Initiated", some "t0", none⟩], [], 1⟩
      ⟨some 0, some "pay_1", some "order_A", some "sigv", some []⟩).db =
      ⟨[⟨0, "Alpha", "Web Dev", 1, "order_A", none, 10000, "Initiated", some "t0", none⟩], [], 1⟩ ∧
    (verifyPayment ⟨fun _ m => m, "sec", "production", "t1"⟩
      ⟨[⟨0, "Alpha", "Web Dev", 1, "order_A", none, 10000, "Initiated", some "t0", none⟩], [], 1⟩
      ⟨some 0, some "pay_1", some "order_A", some "sigv", some []⟩).reads = 0 ∧
    (verifyPayment ⟨fun _ m => m, "sec", "production", "t1"⟩
      ⟨[⟨0, "Alpha", "Web Dev", 1, "order_A", none, 10000, "Initiated", some "t0", none⟩], [], 1⟩
      ⟨some 0, some "pay_1", some "order_A", some "sigv", some []⟩).writes = 0 ∧
    verifyPayment ⟨fun k m => k ++ m, "other", "development", "t2"⟩
      ⟨[⟨0, "Alpha", "Web Dev", 1, "order_A", none, 10000, "Initiated", some "t0", none⟩], [], 1⟩
      ⟨some 0, some "pay_1", some "order_A", some "sigv", some []⟩ =
    verifyPayment ⟨fun _ m => m, "sec", "production", "t1"⟩
      ⟨[⟨0, "Alpha", "Web Dev", 1, "order_A", none, 10000, "Initiated", some "t0", none⟩], [], 1⟩
      ⟨some 0, some "pay_1", some "order_A", some "sigv", some []⟩ :=
  verify_falsy_fields_rejected_before_io _ _ _ _ (by decide)

/-- C2: a verification call whose signature does not equal the keyed hash of
orderId | paymentId under the shared secret is rejected with the fraud
message, performing no database read or write, leaving the store unchanged. -/
theorem verify_bad_signature_rejected
    (ctx : VerifyCtx) (db : Db) (tid : Int) (pid oid sig : String)
    (ms : List VMember)
    (htid : tid ≠ 0) (hpid : pid ≠ "") (hoid : oid ≠ "") (hsig : sig ≠ "")
    (hms : ms ≠ []) (hroll : firstMissingRoll 0 ms = none)
    (hbad : sig ≠ ctx.hmac ctx.secret (oid ++ "|" ++ pid)) :
    (verifyPayment ctx db ⟨some tid, some pid, some oid, some sig, some ms⟩).resp.status = 400 ∧
    (verifyPayment ctx db ⟨some tid, some pid, some oid, some sig, some ms⟩).resp.message =
      "Invalid payment signature. Possible fraud attempt." ∧
    (verifyPayment ctx db ⟨some tid, some pid, some oid, some sig, some ms⟩).db = db ∧
    (verifyPayment ctx db ⟨some tid, some pid, some oid, some sig, some ms⟩).reads = 0 ∧
    (verifyPayment ctx db ⟨some tid, some pid, some oid, some sig, some ms⟩).writes = 0 := by
  simp [verifyPayment, jsTruthyI_some, jsTruthyS_some, htid, hpid, hoid, hsig,
    List.length_eq_zero, hms, hroll, Ne.symm hbad]

/-- Witness for C2: a wrong signature against a store holding an Initiated
team is rejected with the fraud message and zero database operations. -/
theorem verify_bad_signature_rejected_witness :
    (verifyPayment ⟨fun k m => k ++ ":" ++ m, "sec", "production", "t1"⟩
      ⟨[⟨1, "Alpha", "Web Dev", 1, "order_A", none, 10000, "Initiated", some "t0", none⟩], [], 2⟩
      ⟨some 1, some "pay_1", some "order_A", some "forged",
        some [⟨"A", "a@x.com", "9", "C", "Team Lead", some "R1", none⟩]⟩).resp.status = 400 ∧
    (verifyPayment ⟨fun k m => k ++ ":" ++ m, "sec", "production", "t1"⟩
      ⟨[⟨1, "Alpha", "Web Dev", 1, "order_A", none, 10000, "Initiated", some "t0", none⟩], [], 2⟩
      ⟨some 1, some "pay_1", some "order_A", some "forged",
        some [⟨"A", "a@x.com", "9", "C", "Team Lead", some "R1", none⟩]⟩).resp.message =
      "Invalid payment signature. Possible fraud attempt." ∧
    (verifyPayment ⟨fun k m => k ++ ":" ++ m, "sec", "production", "t1"⟩
      ⟨[⟨1, "Alpha", "Web Dev", 1, "order_A", none, 10000, "Initiated", some "t0", none⟩], [], 2⟩
      ⟨some 1, some "pay_1", some "order_A", some "forged",
        some [⟨"A", "a@x.com", "9", "C", "Team Lead", some "R1", none⟩]⟩).db =
      ⟨[⟨1, "Alpha", "Web Dev", 1, "order_A", none, 10000, "Initiated", some "t0", none⟩], [], 2⟩ ∧
    (verifyPayment ⟨fun k m => k ++ ":" ++ m, "sec", "production", "t1"⟩
      ⟨[⟨1, "Alpha", "Web Dev", 1, "order_A", none, 10000, "Initiated", some "t0", none⟩], [], 2⟩
      ⟨some 1, some "pay_1", some "order_A", some "forged",
        some [⟨"A", "a@x.com", "9", "C", "Team Lead", some "R1", none⟩]⟩).reads = 0 ∧
    (verifyPayment ⟨fun k m => k ++ ":" ++ m, "sec", "production", "t1"⟩
      ⟨[⟨1, "Alpha", "Web Dev", 1, "order_A", none, 10000, "Initiated", some "t0", none⟩], [], 2⟩
      ⟨some 1, some "pay_1", some "order_A", some "forged",
        some [⟨"A", "a@x.com", "9", "C", "Team Lead", some "R1", none⟩]⟩).writes = 0 :=
  verify_bad_signature_rejected _ _ _ _ _ _ _ (by decide) (by decide) (by decide)
    (by decide) (by decide) (by decide) (by decide)

/-- If no row satisfies the update condition, the conditional update leaves
the teams table unchanged. -/
theorem updateTeamsCond_fst_eq_self {tid : Int} {pid now : String}
    {l : List Team} (h : ∀ t ∈ l, updMatches tid t = false) :
    (updateTeamsCond tid pid now l).1 = l := by
  induction l with
  | nil => rfl
  | cons x xs ih =>
    have hx := h x (List.mem_cons_self x xs)
    have hxs := ih (fun t ht => h t (List.mem_cons_of_mem x ht))
    simp [updateTeamsCond] at hxs ⊢
    exact ⟨by simp [hx], hxs⟩

/-- The per-row action of the conditional update preserves the row id. -/
theorem updApply_id (tid : Int) (pid now : String) (x : Team) :
    (if updMatches tid x then completeTeam pid now x else x).id = x.id := by
  by_cases hm : updMatches tid x = true
  · rw [if_pos hm]; rfl
  · rw [if_neg hm]

/-- After the conditional update ran, no row satisfies its condition any
more: matched rows became Completed and unmatched rows are unchanged. -/
theorem updMatches_false_after_update (tid : Int) (pid now : String)
    (l : List Team) :
    ∀ t ∈ (updateTeamsCond tid pid now l).1, updMatches tid t = false := by
  intro t ht
  simp only [updateTeamsCond, List.mem_map] at ht
  obtain ⟨s, _, rfl⟩ := ht
  cases hs : updMatches tid s with
  | true => simp [updMatches, completeTeam]
  | false => simpa using hs

/-- Point lookup by id commutes with the conditional update, which preserves
ids. -/
theorem find?_after_update (tid : Int) (pid now : String) (l : List Team) :
    ((updateTeamsCond tid pid now l).1).find? (fun t => t.id == tid) =
      (l.find? (fun t => t.id == tid)).map
        (fun t => if updMatches tid t then completeTeam pid now t else t) := by
  induction l with
  | nil => rfl
  | cons x xs ih =>
    simp only [updateTeamsCond, List.map_cons, List.find?_cons] at ih ⊢
    cases hx : (x.id == tid) with
    | true =>
      have hfx : ((if updMatches tid x then completeTeam pid now x else x).id == tid) = true := by
        rw [updApply_id]; exact hx
      rw [hfx]
      simp
    | false =>
      have hfx : ((if updMatches tid x then completeTeam pid now x else x).id == tid) = false := by
        rw [updApply_id]; exact hx
      rw [hfx]
      simpa using ih

/-- In a table whose ids are pairwise distinct (the primary key), two rows
with the same id are the same row. -/
theorem team_eq_of_nodup_id {l : List Team}
    (hnodup : (l.map (fun t => t.id)).Nodup)
    {a b : Team} (ha : a ∈ l) (hb : b ∈ l) (hid : a.id = b.id) : a = b :=
  List.inj_on_of_nodup_map hnodup ha hb hid

/-- With distinct ids, if the row found by id is not Initiated then no row
satisfies the conditional-update condition. -/
theorem filter_updMatches_nil {db : Db} {tid : Int} {team : Team}
    (hnodup : (db.teams.map (fun t => t.id)).Nodup)
    (hfind : db.teams.find? (fun t => t.id == tid) = some team)
    (hstatus : team.payment_status ≠ "Initiated") :
    ∀ t ∈ db.teams, updMatches tid t = false := by
  intro t ht
  have hteam_mem : team ∈ db.teams := List.mem_of_find?_eq_some hfind
  have hteam_id := List.find?_some hfind
  simp only [beq_iff_eq] at hteam_id
  cases hm : updMatches tid t with
  | false => rfl
  | true =>
    exfalso
    simp only [updMatches, Bool.and_eq_true, beq_iff_eq] at hm
    obtain ⟨hid, hst⟩ := hm
    have ht_eq : t = team :=
      team_eq_of_nodup_id hnodup ht hteam_mem (by rw [hid, hteam_id])
    rw [ht_eq] at hst
    exact hstatus hst

/-- The conditional update preserves the id column of the teams table. -/
theorem update_preserves_ids (tid : Int) (pid now : String) (l : List Team) :
    ((updateTeamsCond tid pid now l).1).map (fun t => t.id) =
      l.map (fun t => t.id) := by
  induction l with
  | nil => rfl
  | cons x xs ih =>
    simp only [updateTeamsCond, List.map_cons] at ih ⊢
    rw [updApply_id, ih]

/-- If the row found by id is Initiated, the conditional update matches at
least one row. -/
theorem count_ne_zero_of_found {l : List Team} {tid : Int} {team : Team}
    (hfind : l.find? (fun t => t.id == tid) = some team)
    (hstatus : team.payment_status = "Initiated") (pid now : String) :
    ((updateTeamsCond tid pid now l).2 == 0) = false := by
  have hmem := List.mem_of_find?_eq_some hfind
  have hid := List.find?_some hfind
  have hm : updMatches tid team = true := by
    simp only [updMatches, Bool.and_eq_true]
    exact ⟨hid, by simp [hstatus]⟩
  have hmemf : team ∈ l.filter (updMatches tid) := List.mem_filter.mpr ⟨hmem, hm⟩
  have hpos : 0 < (l.filter (updMatches tid)).length := List.length_pos_of_mem hmemf
  simp only [updateTeamsCond]
  simp only [beq_eq_false_iff_ne, ne_eq]
  omega

/-- The only error the modelled registrations insert produces is the
duplicate-key message. -/
theorem insertRegistrations_error_msg {db : Db} {rows : List Registration}
    {msg : String} (h : insertRegistrations db rows = .error msg) :
    msg = "duplicate key value violates unique constraint" := by
  unfold insertRegistrations at h
  by_cases hc : (regEmailTaken db rows || regRollTaken db rows) = true
  · rw [if_pos hc] at h; cases h; rfl
  · rw [if_neg hc] at h; cases h

/-- A successful registrations insert appends the batch and touches nothing
else. -/
theorem insertRegistrations_ok_db {db : Db} {rows : List Registration}
    {db2 : Db} (h : insertRegistrations db rows = .ok db2) :
    db2 = { db with registrations := db.registrations ++ rows } := by
  unfold insertRegistrations at h
  by_cases hc : (regEmailTaken db rows || regRollTaken db rows) = true
  · rw [if_pos hc] at h; cases h
  · rw [if_neg hc] at h; cases h; rfl

/-- The duplicate-key message passes the includes check of the handler. -/
theorem dupMsg_includes :
    (jsIncludes "duplicate key value violates unique constraint"
        "duplicate key value" ||
      jsIncludes "duplicate key value violates unique constraint"
        "unique") = true := by decide

/-- Core conflict path: a fully validated verification call against a team
whose stored status is anything other than Initiated matches zero rows in
the conditional update and yields exactly the 409 conflict with the store
unchanged. -/
theorem verify_conflict_eq
    (ctx : VerifyCtx) (db : Db) (tid : Int) (pid oid : String)
    (ms : List VMember) (team : Team)
    (htid : tid ≠ 0) (hpid : pid ≠ "") (hoid : oid ≠ "")
    (hsig : ctx.hmac ctx.secret (oid ++ "|" ++ pid) ≠ "")
    (hms : ms ≠ []) (hroll : firstMissingRoll 0 ms = none)
    (hnodup : (db.teams.map (fun t => t.id)).Nodup)
    (hfind : db.teams.find? (fun t => t.id == tid) = some team)
    (horder : team.razorpay_order_id = oid)
    (hstatus : team.payment_status ≠ "Initiated") :
    verifyPayment ctx db ⟨some tid, some pid, some oid,
        some (ctx.hmac ctx.secret (oid ++ "|" ++ pid)), some ms⟩ =
      ⟨⟨409, false, "Payment already verified for this team", none, none, none⟩,
        db, 1, 1⟩ := by
  have hall := filter_updMatches_nil hnodup hfind hstatus
  have h1 : (updateTeamsCond tid pid ctx.now db.teams).1 = db.teams :=
    updateTeamsCond_fst_eq_self hall
  have h2 : ((updateTeamsCond tid pid ctx.now db.teams).2 == 0) = true := by
    simp only [updateTeamsCond]
    have : db.teams.filter (updMatches tid) = [] := by
      rw [List.filter_eq_nil_iff]
      intro a ha
      simp [hall a ha]
    simp [this]
  simp [verifyPayment, finalizeTeam, jsTruthyI_some, jsTruthyS_some, htid, hpid,
    hoid, hsig, List.length_eq_zero, hms, hroll, hfind, horder, h1, h2]

/-- On the Initiated path, whatever the member insert does, the resulting
teams table is exactly the conditionally updated one, and its registrations
either stay or grow by the member batch. -/
theorem verify_initiated_db_shape
    (ctx : VerifyCtx) (db : Db) (tid : Int) (pid oid : String)
    (ms : List VMember) (team : Team)
    (htid : tid ≠ 0) (hpid : pid ≠ "") (hoid : oid ≠ "")
    (hsig : ctx.hmac ctx.secret (oid ++ "|" ++ pid) ≠ "")
    (hms : ms ≠ []) (hroll : firstMissingRoll 0 ms = none)
    (hfind : db.teams.find? (fun t => t.id == tid) = some team)
    (horder : team.razorpay_order_id = oid)
    (hstatus : team.payment_status = "Initiated") :
    (verifyPayment ctx db ⟨some tid, some pid, some oid,
        some (ctx.hmac ctx.secret (oid ++ "|" ++ pid)), some ms⟩).db.teams =
      (updateTeamsCond tid pid ctx.now db.teams).1 ∧
    ((verifyPayment ctx db ⟨some tid, some pid, some oid,
        some (ctx.hmac ctx.secret (oid ++ "|" ++ pid)), some ms⟩).db.registrations =
        db.registrations ∨
      (verifyPayment ctx db ⟨some tid, some pid, some oid,
        some (ctx.hmac ctx.secret (oid ++ "|" ++ pid)), some ms⟩).db.registrations =
        db.registrations ++ ms.map (toRegRow tid)) := by
  have hcount := count_ne_zero_of_found hfind hstatus pid ctx.now
  cases hins : insertRegistrations { db with teams := (updateTeamsCond tid pid ctx.now db.teams).1 }
      (ms.map (toRegRow tid)) with
  | error msg =>
    have hmsg := insertRegistrations_error_msg hins
    subst hmsg
    simp [verifyPayment, finalizeTeam, jsTruthyI_some, jsTruthyS_some, htid, hpid,
      hoid, hsig, List.length_eq_zero, hms, hroll, hfind, horder, hcount, hins,
      dupMsg_includes]
  | ok db2 =>
    have hdb2 := insertRegistrations_ok_db hins
    subst hdb2
    simp [verifyPayment, finalizeTeam, jsTruthyI_some, jsTruthyS_some, htid, hpid,
      hoid, hsig, List.length_eq_zero, hms, hroll, hfind, horder, hcount, hins]

/-- C8 (code bug): the create-order catch branch returns the underlying
error message in the details field even outside development mode; here the
gateway failure message leaks verbatim while the registration and
verify-payment handlers, in the same non-development mode, suppress theirs. -/
theorem createOrder_leaks_details_outside_development :
    (createOrderRoute true (some 100) (.error "gateway timeout at 10.0.0.7")).status = 500 ∧
    (createOrderRoute true (some 100) (.error "gateway timeout at 10.0.0.7")).details =
      some "gateway timeout at 10.0.0.7" ∧
    (registrationRoute ⟨100, true, .error "gateway timeout at 10.0.0.7", "production", "t0"⟩
      Db.init
      ⟨some "Alpha", some "Web Dev",
        some [⟨some "A", some "a@x.com", some "9", some "C", some "Team Lead"⟩]⟩).resp.error =
      none := by
  decide

/-- C4: a fully validated verification call (presence and signature checks
pass, team found) whose supplied order id differs from the order id stored
on the team is rejected with the 400 Order ID mismatch response, with no
write issued and the store unchanged — even though the signature was valid
for the supplied (order, payment) pair. -/
theorem verify_order_mismatch_rejected
    (ctx : VerifyCtx) (db : Db) (tid : Int) (pid oid sig : String)
    (ms : List VMember) (team : Team)
    (htid : tid ≠ 0) (hpid : pid ≠ "") (hoid : oid ≠ "") (hsig : sig ≠ "")
    (hms : ms ≠ []) (hroll : firstMissingRoll 0 ms = none)
    (hsigok : sig = ctx.hmac ctx.secret (oid ++ "|" ++ pid))
    (hfind : db.teams.find? (fun t => t.id == tid) = some team)
    (hmismatch : team.razorpay_order_id ≠ oid) :
    (verifyPayment ctx db ⟨some tid, some pid, some oid, some sig, some ms⟩).resp.status = 400 ∧
    (verifyPayment ctx db ⟨some tid, some pid, some oid, some sig, some ms⟩).resp.message =
      "Order ID mismatch" ∧
    (verifyPayment ctx db ⟨some tid, some pid, some oid, some sig, some ms⟩).db = db ∧
    (verifyPayment ctx db ⟨some tid, some pid, some oid, some sig, some ms⟩).writes = 0 := by
  subst hsigok
  simp [verifyPayment, jsTruthyI_some, jsTruthyS_some, htid, hpid, hoid, hsig,
    List.length_eq_zero, hms, hroll, hfind, hmismatch]

/-- Witness for C4: the signature is genuinely valid for the supplied
(order, payment) pair, but the team stores a different order id: 400
mismatch, nothing written. -/
theorem verify_order_mismatch_rejected_witness :
    (verifyPayment ⟨fun k m => k ++ ":" ++ m, "sec", "production", "t1"⟩
      ⟨[⟨1, "Alpha", "Web Dev", 1, "order_B", none, 10000, "Initiated", some "t0", none⟩], [], 2⟩
      ⟨some 1, some "pay_1", some "order_A", some "sec:order_A|pay_1",
        some [⟨"A", "a@x.com", "9", "C", "Team Lead", some "R1", none⟩]⟩).resp.status = 400 ∧
    (verifyPayment ⟨fun k m => k ++ ":" ++ m, "sec", "production", "t1"⟩
      ⟨[⟨1, "Alpha", "Web Dev", 1, "order_B", none, 10000, "Initiated", some "t0", none⟩], [], 2⟩
      ⟨some 1, some "pay_1", some "order_A", some "sec:order_A|pay_1",
        some [⟨"A", "a@x.com", "9", "C", "Team Lead", some "R1", none⟩]⟩).resp.message =
      "Order ID mismatch" ∧
    (verifyPayment ⟨fun k m => k ++ ":" ++ m, "sec", "production", "t1"⟩
      ⟨[⟨1, "Alpha", "Web Dev", 1, "order_B", none, 10000, "Initiated", some "t0", none⟩], [], 2⟩
      ⟨some 1, some "pay_1", some "order_A", some "sec:order_A|pay_1",
        some [⟨"A", "a@x.com", "9", "C", "Team Lead", some "R1", none⟩]⟩).db =
      ⟨[⟨1, "Alpha", "Web Dev", 1, "order_B", none, 10000, "Initiated", some "t0", none⟩], [], 2⟩ ∧
    (verifyPayment ⟨fun k m => k ++ ":" ++ m, "sec", "production", "t1"⟩
      ⟨[⟨1, "Alpha", "Web Dev", 1, "order_B", none, 10000, "Initiated", some "t0", none⟩], [], 2⟩
      ⟨some 1, some "pay_1", some "order_A", some "sec:order_A|pay_1",
        some [⟨"A", "a@x.com", "9", "C", "Team Lead", some "R1", none⟩]⟩).writes = 0 :=
  verify_order_mismatch_rejected _ _ _ _ _ _ _
    ⟨1, "Alpha", "Web Dev", 1, "order_B", none, 10000, "Initiated", some "t0", none⟩
    (by decide) (by decide) (by decide)
    (by decide) (by decide) (by decide) (by decide) (by decide) (by decide)

/-- C9: once presence, signature, lookup and order-identity checks pass, a
team stored in any status other than Initiated — Completed, Pending or
Failed alike — receives the one uniform 409 already-verified conflict, with
the store unchanged: the handler never distinguishes a finalized team from
one that never reached Initiated, and no pre-update status check affects
the outcome. -/
theorem verify_nonInitiated_uniform_conflict
    (ctx : VerifyCtx) (db : Db) (tid : Int) (pid oid sig : String)
    (ms : List VMember) (team : Team)
    (htid : tid ≠ 0) (hpid : pid ≠ "") (hoid : oid ≠ "") (hsig : sig ≠ "")
    (hms : ms ≠ []) (hroll : firstMissingRoll 0 ms = none)
    (hsigok : sig = ctx.hmac ctx.secret (oid ++ "|" ++ pid))
    (hnodup : (db.teams.map (fun t => t.id)).Nodup)
    (hfind : db.teams.find? (fun t => t.id == tid) = some team)
    (horder : team.razorpay_order_id = oid)
    (hstatus : team.payment_status ≠ "Initiated") :
    verifyPayment ctx db ⟨some tid, some pid, some oid, some sig, some ms⟩ =
      ⟨⟨409, false, "Payment already verified for this team", none, none, none⟩,
        db, 1, 1⟩ := by
  subst hsigok
  exact verify_conflict_eq ctx db tid pid oid ms team htid hpid hoid hsig hms
    hroll hnodup hfind horder hstatus

/-- Witness for C9: a team whose status is Pending — it never reached
Initiated — receives exactly the same 409 already-verified conflict. -/
theorem verify_nonInitiated_uniform_conflict_witness :
    verifyPayment ⟨fun k m => k ++ ":" ++ m, "sec", "production", "t1"⟩
      ⟨[⟨1, "Alpha", "Web Dev", 1, "order_A", none, 10000, "Pending", some "t0", none⟩], [], 2⟩
      ⟨some 1, some "pay_1", some "order_A", some "sec:order_A|pay_1",
        some [⟨"A", "a@x.com", "9", "C", "Team Lead", some "R1", none⟩]⟩ =
      ⟨⟨409, false, "Payment already verified for this team", none, none, none⟩,
        ⟨[⟨1, "Alpha", "Web Dev", 1, "order_A", none, 10000, "Pending", some "t0", none⟩], [], 2⟩,
        1, 1⟩ :=
  verify_nonInitiated_uniform_conflict _ _ _ _ _ _ _
    ⟨1, "Alpha", "Web Dev", 1, "order_A", none, 10000, "Pending", some "t0", none⟩
    (by decide) (by decide)
    (by decide) (by decide) (by decide) (by decide) (by decide) (by decide)
    (by decide) (by decide) (by decide)

/-- C1: for a fully validated verification call on an existing team, the
Completed update is applied only when the stored status is still Initiated,
through the single conditional update whose affected-row count is inspected.
If zero rows match, the call gets the 409 already-verified conflict and the
store — member rows included — is untouched.  If the team was Initiated, the
transition (payment id and verification timestamp recorded) happens, and
replaying the identical payload afterwards yields the 409 conflict with no
further change: the transition and the member batch happen at most once. -/
theorem verify_transition_at_most_once
    (ctx : VerifyCtx) (db : Db) (tid : Int) (pid oid sig : String)
    (ms : List VMember) (team : Team)
    (htid : tid ≠ 0) (hpid : pid ≠ "") (hoid : oid ≠ "") (hsig : sig ≠ "")
    (hms : ms ≠ []) (hroll : firstMissingRoll 0 ms = none)
    (hsigok : sig = ctx.hmac ctx.secret (oid ++ "|" ++ pid))
    (hnodup : (db.teams.map (fun t => t.id)).Nodup)
    (hfind : db.teams.find? (fun t => t.id == tid) = some team)
    (horder : team.razorpay_order_id = oid) :
    (team.payment_status ≠ "Initiated" →
      verifyPayment ctx db ⟨some tid, some pid, some oid, some sig, some ms⟩ =
        ⟨⟨409, false, "Payment already verified for this team", none, none, none⟩,
          db, 1, 1⟩) ∧
    (team.payment_status = "Initiated" →
      (∃ t ∈ (verifyPayment ctx db
          ⟨some tid, some pid, some oid, some sig, some ms⟩).db.teams,
        t.id = tid ∧ t.payment_status = "Completed" ∧
        t.razorpay_payment_id = some pid ∧
        t.payment_verified_at = some ctx.now) ∧
      verifyPayment ctx
          (verifyPayment ctx db ⟨some tid, some pid, some oid, some sig, some ms⟩).db
          ⟨some tid, some pid, some oid, some sig, some ms⟩ =
        ⟨⟨409, false, "Payment already verified for this team", none, none, none⟩,
          (verifyPayment ctx db ⟨some tid, some pid, some oid, some sig, some ms⟩).db,
          1, 1⟩) := by
  subst hsigok
  constructor
  · intro hstatus
    exact verify_conflict_eq ctx db tid pid oid ms team htid hpid hoid hsig hms
      hroll hnodup hfind horder hstatus
  · intro hstatus
    obtain ⟨hteams, -⟩ := verify_initiated_db_shape ctx db tid pid oid ms team
      htid hpid hoid hsig hms hroll hfind horder hstatus
    have hmem := List.mem_of_find?_eq_some hfind
    have hidbeq := List.find?_some hfind
    have hid : team.id = tid := by simpa using hidbeq
    have hm : updMatches tid team = true := by simp [updMatches, hid, hstatus]
    constructor
    · refine ⟨completeTeam pid ctx.now team, ?_, ?_, ?_, ?_⟩
      · rw [hteams]
        simp only [updateTeamsCond]
        exact List.mem_map.mpr ⟨team, hmem, by rw [if_pos hm]⟩
      · simpa [completeTeam] using hid
      · rfl
      · exact ⟨rfl, rfl⟩
    · have hnodup2 : ((verifyPayment ctx db
          ⟨some tid, some pid, some oid,
            some (ctx.hmac ctx.secret (oid ++ "|" ++ pid)), some ms⟩).db.teams.map
          (fun t => t.id)).Nodup := by
        rw [hteams, update_preserves_ids]
        exact hnodup
      have hfind2 : (verifyPayment ctx db
          ⟨some tid, some pid, some oid,
            some (ctx.hmac ctx.secret (oid ++ "|" ++ pid)), some ms⟩).db.teams.find?
          (fun t => t.id == tid) = some (completeTeam pid ctx.now team) := by
        rw [hteams, find?_after_update, hfind]
        simp [hm]
      have horder2 : (completeTeam pid ctx.now team).razorpay_order_id = oid := horder
      have hstatus2 : (completeTeam pid ctx.now team).payment_status ≠ "Initiated" := by
        simp [completeTeam]
      exact verify_conflict_eq ctx _ tid pid oid ms (completeTeam pid ctx.now team)
        htid hpid hoid hsig hms hroll hnodup2 hfind2 horder2 hstatus2

/-- Witness for C1: a concrete Initiated team is finalized by a valid call,
and replaying the identical payload against the resulting store returns the
409 conflict and changes nothing. -/
theorem verify_transition_at_most_once_witness :
    (∃ t ∈ (verifyPayment ⟨fun k m => k ++ ":" ++ m, "sec", "production", "t1"⟩
        ⟨[⟨1, "Alpha", "Web Dev", 1, "order_A", none, 10000, "Initiated", some "t0", none⟩], [], 2⟩
        ⟨some 1, some "pay_1", some "order_A", some "sec:order_A|pay_1",
          some [⟨"A", "a@x.com", "9", "C", "Team Lead", some "R1", none⟩]⟩).db.teams,
      t.id = 1 ∧ t.payment_status = "Completed" ∧
      t.razorpay_payment_id = some "pay_1" ∧ t.payment_verified_at = some "t1") ∧
    verifyPayment ⟨fun k m => k ++ ":" ++ m, "sec", "production", "t1"⟩
        (verifyPayment ⟨fun k m => k ++ ":" ++ m, "sec", "production", "t1"⟩
          ⟨[⟨1, "Alpha", "Web Dev", 1, "order_A", none, 10000, "Initiated", some "t0", none⟩], [], 2⟩
          ⟨some 1, some "pay_1", some "order_A", some "sec:order_A|pay_1",
            some [⟨"A", "a@x.com", "9", "C", "Team Lead", some "R1", none⟩]⟩).db
        ⟨some 1, some "pay_1", some "order_A", some "sec:order_A|pay_1",
          some [⟨"A", "a@x.com", "9", "C", "Team Lead", some "R1", none⟩]⟩ =
      ⟨⟨409, false, "Payment already verified for this team", none, none, none⟩,
        (verifyPayment ⟨fun k m => k ++ ":" ++ m, "sec", "production", "t1"⟩
          ⟨[⟨1, "Alpha", "Web Dev", 1, "order_A", none, 10000, "Initiated", some "t0", none⟩], [], 2⟩
          ⟨some 1, some "pay_1", some "order_A", some "sec:order_A|pay_1",
            some [⟨"A", "a@x.com", "9", "C", "Team Lead", some "R1", none⟩]⟩).db,
        1, 1⟩ :=
  (verify_transition_at_most_once
    ⟨fun k m => k ++ ":" ++ m, "sec", "production", "t1"⟩
    ⟨[⟨1, "Alpha", "Web Dev", 1, "order_A", none, 10000, "Initiated", some "t0", none⟩], [], 2⟩
    1 "pay_1" "order_A" "sec:order_A|pay_1"
    [⟨"A", "a@x.com", "9", "C", "Team Lead", some "R1", none⟩]
    ⟨1, "Alpha", "Web Dev", 1, "order_A", none, 10000, "Initiated", some "t0", none⟩
    (by decide) (by decide) (by decide) (by decide) (by decide) (by decide)
    (by decide) (by decide) (by decide) (by decide)).2 (by decide)

/-- Every rejection produced by the member loop is a 400 validation error. -/
theorem checkMembers_some_is_err {i : Nat} {seen : List (Option String)}
    {ms : List RMember} {e : RegResp}
    (h : checkMembers i seen ms = some e) : ∃ msg, e = err400 msg := by
  induction ms generalizing i seen with
  | nil => cases h
  | cons m rest ih =>
    simp only [checkMembers] at h
    by_cases h1 : (seen.any fun x => x == m.email) = true
    · rw [if_pos h1] at h
      exact ⟨_, (Option.some.inj h).symm⟩
    · rw [if_neg h1] at h
      by_cases h2 : (missingFields m).length > 0
      · rw [if_pos h2] at h
        exact ⟨_, (Option.some.inj h).symm⟩
      · rw [if_neg h2] at h
        by_cases h3 : (!roleAllowed m.role) = true
        · rw [if_pos h3] at h
          exact ⟨_, (Option.some.inj h).symm⟩
        · rw [if_neg h3] at h
          exact ih h

/-- Every rejection produced by the validation phase is a 400 error. -/
theorem regValidate_some_is_err {req : RegReq} {e : RegResp}
    (h : regValidate req = some e) : ∃ msg, e = err400 msg := by
  unfold regValidate at h
  repeat' split at h
  all_goals
    first
    | (cases h; exact ⟨_, rfl⟩)
    | cases h
    | exact ⟨_, (Option.some.inj h).symm⟩
    | exact checkMembers_some_is_err h

/-- When a request with all three top-level fields present validates
cleanly, the member loop in particular returned no rejection. -/
theorem regValidate_none_checkMembers {tn d : String} {ms : List RMember}
    (h : regValidate ⟨some tn, some d, some ms⟩ = none) :
    checkMembers 0 [] ms = none := by
  simp only [regValidate] at h
  repeat' split at h
  all_goals first | cases h | exact h

/-- A clean run of the member loop saw pairwise distinct emails, none of
which was in the incoming seen set. -/
theorem checkMembers_none_no_dup {ms : List RMember} :
    ∀ {i : Nat} {seen : List (Option String)},
    checkMembers i seen ms = none →
    listHasDup (ms.map (fun m => m.email)) = false ∧
    ∀ e ∈ ms.map (fun m => m.email), (seen.any fun x => x == e) = false := by
  induction ms with
  | nil => intro i seen _; simp [listHasDup]
  | cons m rest ih =>
    intro i seen h
    simp only [checkMembers] at h
    by_cases h1 : (seen.any fun x => x == m.email) = true
    · rw [if_pos h1] at h; cases h
    · rw [if_neg h1] at h
      by_cases h2 : (missingFields m).length > 0
      · rw [if_pos h2] at h; cases h
      · rw [if_neg h2] at h
        by_cases h3 : (!roleAllowed m.role) = true
        · rw [if_pos h3] at h; cases h
        · rw [if_neg h3] at h
          obtain ⟨ihd, ihs⟩ := ih h
          have h1f : (seen.any fun x => x == m.email) = false := by
            simp only [Bool.not_eq_true] at h1
            exact h1
          constructor
          · simp only [List.map_cons, listHasDup, Bool.or_eq_false_iff]
            refine ⟨?_, ihd⟩
            rw [List.any_eq_false]
            intro e he
            have := ihs e he
            simp only [List.any_cons, Bool.or_eq_false_iff] at this
            intro habs
            rw [beq_iff_eq] at habs
            have hme : (m.email == e) = false := this.1
            rw [habs, beq_self_eq_true] at hme
            cases hme
          · intro e he
            simp only [List.map_cons, List.mem_cons] at he
            rcases he with rfl | he
            · exact h1f
            · have := ihs e he
              simp only [List.any_cons, Bool.or_eq_false_iff] at this
              exact this.2

/-- A member list with a duplicated email never survives the member loop. -/
theorem checkMembers_some_of_dup {i : Nat} {seen : List (Option String)}
    {ms : List RMember}
    (hdup : listHasDup (ms.map (fun m => m.email)) = true) :
    ∃ e, checkMembers i seen ms = some e := by
  cases hch : checkMembers i seen ms with
  | none =>
    have := (checkMembers_none_no_dup hch).1
    rw [this] at hdup
    cases hdup
  | some e => exact ⟨e, rfl⟩

/-- C7: with a valid team name and domain, a registration whose members list
has 0 or more than 5 entries is rejected 400 with the count message; one
with two or more Team Lead roles is rejected 400 with the single-lead
message; one with no Team Lead is rejected 400 with the exactly-one message;
and one with the same email twice among its own members is rejected 400 —
in every case before any database read, order call, or store change. -/
theorem registration_boundary_rejections
    (ctx : RegCtx) (db : Db) (tn d : String) (ms : List RMember)
    (htn : (jsTrim tn == "") = false)
    (hd : d ∈ validDomains) :
    ((ms.length < 1 ∨ ms.length > 5) →
      registrationRoute ctx db ⟨some tn, some d, some ms⟩ =
        ⟨err400 "Team must have 1 to 5 members", db, 0, 0, []⟩) ∧
    (1 ≤ ms.length → ms.length ≤ 5 →
      2 ≤ (ms.filter (fun m => m.role == some "Team Lead")).length →
      registrationRoute ctx db ⟨some tn, some d, some ms⟩ =
        ⟨err400 "Only one Team Lead is allowed per team", db, 0, 0, []⟩) ∧
    (1 ≤ ms.length → ms.length ≤ 5 →
      (ms.filter (fun m => m.role == some "Team Lead")).length = 0 →
      registrationRoute ctx db ⟨some tn, some d, some ms⟩ =
        ⟨err400 "Team must have exactly one Team Lead", db, 0, 0, []⟩) ∧
    (listHasDup (ms.map (fun m => m.email)) = true →
      (registrationRoute ctx db ⟨some tn, some d, some ms⟩).resp.status = 400 ∧
      (registrationRoute ctx db ⟨some tn, some d, some ms⟩).db = db ∧
      (registrationRoute ctx db ⟨some tn, some d, some ms⟩).orderCalls = 0 ∧
      (registrationRoute ctx db ⟨some tn, some d, some ms⟩).reads = 0) := by
  refine ⟨?_, ?_, ?_, ?_⟩
  · intro hlen
    have hv : regValidate ⟨some tn, some d, some ms⟩ =
        some (err400 "Team must have 1 to 5 members") := by
      simp only [regValidate]
      rw [if_neg (by simp [htn]), if_neg (by simp [hd]),
        if_pos (by rcases hlen with h | h <;> simp [h])]
    simp [registrationRoute, hv]
  · intro h1 h5 h2
    have hpos : 0 < (ms.filter (fun m => m.role == some "Team Lead")).length := by
      omega
    obtain ⟨x, hx⟩ := List.exists_mem_of_length_pos hpos
    have hxm := List.mem_filter.mp hx
    cases hfind : ms.find? (fun m => m.role == some "Team Lead") with
    | none =>
      exfalso
      have := List.find?_eq_none.mp hfind x hxm.1
      rw [hxm.2] at this
      exact this rfl
    | some lead =>
      have hv : regValidate ⟨some tn, some d, some ms⟩ =
          some (err400 "Only one Team Lead is allowed per team") := by
        simp only [regValidate]
        rw [if_neg (by simp [htn]), if_neg (by simp [hd]),
          if_neg (by simp only [Bool.or_eq_true, decide_eq_true_eq]; omega),
          hfind, if_pos (by omega)]
      simp [registrationRoute, hv]
  · intro h1 h5 h0
    have hnil : ms.filter (fun m => m.role == some "Team Lead") = [] :=
      List.length_eq_zero.mp h0
    have hfind : ms.find? (fun m => m.role == some "Team Lead") = none :=
      List.find?_eq_none.mpr (fun a ha => by
        have := List.filter_eq_nil_iff.mp hnil a ha
        simpa using this)
    have hv : regValidate ⟨some tn, some d, some ms⟩ =
        some (err400 "Team must have exactly one Team Lead") := by
      simp only [regValidate]
      rw [if_neg (by simp [htn]), if_neg (by simp [hd]),
        if_neg (by simp only [Bool.or_eq_true, decide_eq_true_eq]; omega), hfind]
    simp [registrationRoute, hv]
  · intro hdup
    cases hv : regValidate ⟨some tn, some d, some ms⟩ with
    | none =>
      exfalso
      have hchk := regValidate_none_checkMembers hv
      have := (checkMembers_none_no_dup hchk).1
      rw [this] at hdup
      cases hdup
    | some e =>
      obtain ⟨msg, rfl⟩ := regValidate_some_is_err hv
      simp [registrationRoute, hv, err400]

/-- Witness for C7: a 6-member submission, a 2-lead submission, a 0-lead
submission, and a duplicate-email submission are each rejected with 400 and
no side effects, at a concretely populated store. -/
theorem registration_boundary_rejections_witness :
    (registrationRoute ⟨100, true, .ok "order_X", "production", "t0"⟩
        ⟨[], [⟨9, "Z", "z@x.com", "9", "C", "Member", some "R9"⟩], 7⟩
        ⟨some "Gamma", some "UI/UX",
          some [⟨some "A", some "a1@x.com", some "9", some "C", some "Team Lead"⟩,
                ⟨some "B", some "a2@x.com", some "9", some "C", some "Member"⟩,
                ⟨some "C", some "a3@x.com", some "9", some "C", some "Member"⟩,
                ⟨some "D", some "a4@x.com", some "9", some "C", some "Member"⟩,
                ⟨some "E", some "a5@x.com", some "9", some "C", some "Member"⟩,
                ⟨some "F", some "a6@x.com", some "9", some "C", some "Member"⟩]⟩ =
      ⟨err400 "Team must have 1 to 5 members",
        ⟨[], [⟨9, "Z", "z@x.com", "9", "C", "Member", some "R9"⟩], 7⟩, 0, 0, []⟩) ∧
    (registrationRoute ⟨100, true, .ok "order_X", "production", "t0"⟩
        ⟨[], [⟨9, "Z", "z@x.com", "9", "C", "Member", some "R9"⟩], 7⟩
        ⟨some "Gamma", some "UI/UX",
          some [⟨some "A", some "a1@x.com", some "9", some "C", some "Team Lead"⟩,
                ⟨some "B", some "a2@x.com", some "9", some "C", some "Team Lead"⟩]⟩ =
      ⟨err400 "Only one Team Lead is allowed per team",
        ⟨[], [⟨9, "Z", "z@x.com", "9", "C", "Member", some "R9"⟩], 7⟩, 0, 0, []⟩) ∧
    (registrationRoute ⟨100, true, .ok "order_X", "production", "t0"⟩
        ⟨[], [⟨9, "Z", "z@x.com", "9", "C", "Member", some "R9"⟩], 7⟩
        ⟨some "Gamma", some "UI/UX",
          some [⟨some "A", some "a1@x.com", some "9", some "C", some "Member"⟩]⟩ =
      ⟨err400 "Team must have exactly one Team Lead",
        ⟨[], [⟨9, "Z", "z@x.com", "9", "C", "Member", some "R9"⟩], 7⟩, 0, 0, []⟩) ∧
    ((registrationRoute ⟨100, true, .ok "order_X", "production", "t0"⟩
        ⟨[], [⟨9, "Z", "z@x.com", "9", "C", "Member", some "R9"⟩], 7⟩
        ⟨some "Gamma", some "UI/UX",
          some [⟨some "A", some "dup@x.com", some "9", some "C", some "Team Lead"⟩,
                ⟨some "B", some "dup@x.com", some "9", some "C", some "Member"⟩]⟩).resp.status
        = 400 ∧
      (registrationRoute ⟨100, true, .ok "order_X", "production", "t0"⟩
        ⟨[], [⟨9, "Z", "z@x.com", "9", "C", "Member", some "R9"⟩], 7⟩
        ⟨some "Gamma", some "UI/UX",
          some [⟨some "A", some "dup@x.com", some "9", some "C", some "Team Lead"⟩,
                ⟨some "B", some "dup@x.com", some "9", some "C", some "Member"⟩]⟩).db =
        ⟨[], [⟨9, "Z", "z@x.com", "9", "C", "Member", some "R9"⟩], 7⟩ ∧
      (registrationRoute ⟨100, true, .ok "order_X", "production", "t0"⟩
        ⟨[], [⟨9, "Z", "z@x.com", "9", "C", "Member", some "R9"⟩], 7⟩
        ⟨some "Gamma", some "UI/UX",
          some [⟨some "A", some "dup@x.com", some "9", some "C", some "Team Lead"⟩,
                ⟨some "B", some "dup@x.com", some "9", some "C", some "Member"⟩]⟩).orderCalls
        = 0 ∧
      (registrationRoute ⟨100, true, .ok "order_X", "production", "t0"⟩
        ⟨[], [⟨9, "Z", "z@x.com", "9", "C", "Member", some "R9"⟩], 7⟩
        ⟨some "Gamma", some "UI/UX",
          some [⟨some "A", some "dup@x.com", some "9", some "C", some "Team Lead"⟩,
                ⟨some "B", some "dup@x.com", some "9", some "C", some "Member"⟩]⟩).reads
        = 0) :=
  ⟨(registration_boundary_rejections _ _ _ _ _ (by decide) (by decide)).1
      (by decide),
   (registration_boundary_rejections _ _ _ _ _ (by decide) (by decide)).2.1
      (by decide) (by decide) (by decide),
   (registration_boundary_rejections _ _ _ _ _ (by decide) (by decide)).2.2.1
      (by decide) (by decide) (by decide),
   (registration_boundary_rejections _ _ _ _ _ (by decide) (by decide)).2.2.2
      (by decide)⟩

/-- C5: for a registration that passes validation and the duplicate checks,
a failing external order-creation call yields the 500 Failed to create
payment order response with the store unchanged — no team row inserted —
while a successful call leads to exactly one appended team row carrying that
order id in Initiated state: the order id is never referenced by a
non-existent team. -/
theorem registration_order_failure_no_team
    (ctx : RegCtx) (db : Db) (tn d : String) (ms : List RMember)
    (hval : regValidate ⟨some tn, some d, some ms⟩ = none)
    (hteam : db.teams.find? (fun t => t.team_name == tn) = none)
    (hemail : db.registrations.filter
      (fun r => (ms.map (fun m => m.email)).any (fun e => e == some r.email)) = [])
    (hconf : ctx.razorpayConfigured = true) :
    (∀ m, ctx.orderResult = .error m →
      registrationRoute ctx db ⟨some tn, some d, some ms⟩ =
        ⟨⟨500, false, "Failed to create payment order", none,
            (if ctx.mode == "development" then some m else none), none⟩,
          db, 2, 1, [ms.length * ctx.chargePerMember * 100]⟩) ∧
    (∀ oid, ctx.orderResult = .ok oid →
      (∃ t : Team,
        (registrationRoute ctx db ⟨some tn, some d, some ms⟩).db.teams =
          db.teams ++ [t] ∧
        t.razorpay_order_id = oid ∧ t.payment_status = "Initiated") ∧
      (registrationRoute ctx db ⟨some tn, some d, some ms⟩).resp.status = 201 ∧
      (registrationRoute ctx db ⟨some tn, some d, some ms⟩).orderCalls = 1) := by
  constructor
  · intro m hm
    simp [registrationRoute, hval, hteam, hemail, hconf, hm]
  · intro oid ho
    refine ⟨⟨⟨db.nextId, tn, d, ms.length, oid, none,
        ms.length * ctx.chargePerMember * 100, "Initiated", some ctx.now, none⟩,
        ?_, rfl, rfl⟩, ?_, ?_⟩
    · simp [registrationRoute, hval, hteam, hemail, hconf, ho]
    · simp [registrationRoute, hval, hteam, hemail, hconf, ho]
    · simp [registrationRoute, hval, hteam, hemail, hconf, ho]

/-- Witness for C5: with team Beta and two members, the failing gateway
call returns 500 and leaves the empty store untouched; the succeeding call
appends the one Initiated team carrying the created order id. -/
theorem registration_order_failure_no_team_witness :
    (registrationRoute ⟨100, true, .error "ECONNREFUSED", "production", "t0"⟩
        Db.init
        ⟨some "Beta", some "Agentic AI",
          some [⟨some "A", some "b1@x.com", some "9", some "C", some "Team Lead"⟩,
                ⟨some "B", some "b2@x.com", some "9", some "C", some "Member"⟩]⟩ =
      ⟨⟨500, false, "Failed to create payment order", none, none, none⟩,
        Db.init, 2, 1, [20000]⟩) ∧
    ((∃ t : Team,
        (registrationRoute ⟨100, true, .ok "order_B", "production", "t0"⟩
          Db.init
          ⟨some "Beta", some "Agentic AI",
            some [⟨some "A", some "b1@x.com", some "9", some "C", some "Team Lead"⟩,
                  ⟨some "B", some "b2@x.com", some "9", some "C", some "Member"⟩]⟩).db.teams =
          Db.init.teams ++ [t] ∧
        t.razorpay_order_id = "order_B" ∧ t.payment_status = "Initiated") ∧
      (registrationRoute ⟨100, true, .ok "order_B", "production", "t0"⟩
        Db.init
        ⟨some "Beta", some "Agentic AI",
          some [⟨some "A", some "b1@x.com", some "9", some "C", some "Team Lead"⟩,
                ⟨some "B", some "b2@x.com", some "9", some "C", some "Member"⟩]⟩).resp.status
        = 201 ∧
      (registrationRoute ⟨100, true, .ok "order_B", "production", "t0"⟩
        Db.init
        ⟨some "Beta", some "Agentic AI",
          some [⟨some "A", some "b1@x.com", some "9", some "C", some "Team Lead"⟩,
                ⟨some "B", some "b2@x.com", some "9", some "C", some "Member"⟩]⟩).orderCalls
        = 1) :=
  ⟨by
    have h := (registration_order_failure_no_team
      ⟨100, true, .error "ECONNREFUSED", "production", "t0"⟩ Db.init
      "Beta" "Agentic AI"
      [⟨some "A", some "b1@x.com", some "9", some "C", some "Team Lead"⟩,
       ⟨some "B", some "b2@x.com", some "9", some "C", some "Member"⟩]
      (by decide) (by decide) (by decide) (by decide)).1 "ECONNREFUSED" rfl
    simpa using h,
   (registration_order_failure_no_team
      ⟨100, true, .ok "order_B", "production", "t0"⟩ Db.init
      "Beta" "Agentic AI"
      [⟨some "A", some "b1@x.com", some "9", some "C", some "Team Lead"⟩,
       ⟨some "B", some "b2@x.com", some "9", some "C", some "Member"⟩]
      (by decide) (by decide) (by decide) (by decide)).2 "order_B" rfl⟩

/-- C6: a validated registration of n members at chargePerMember c computes
n × c rupees, transmits n × c × 100 minor units to the payment service, and
returns and stores those amounts: the response carries amount = n × c and
amountInPaise = n × c × 100, and the inserted team row stores
amount_in_paise = n × c × 100 with payment status Initiated. -/
theorem registration_amount_formula
    (ctx : RegCtx) (db : Db) (tn d : String) (ms : List RMember) (oid : String)
    (hval : regValidate ⟨some tn, some d, some ms⟩ = none)
    (hteam : db.teams.find? (fun t => t.team_name == tn) = none)
    (hemail : db.registrations.filter
      (fun r => (ms.map (fun m => m.email)).any (fun e => e == some r.email)) = [])
    (hconf : ctx.razorpayConfigured = true)
    (ho : ctx.orderResult = .ok oid) :
    (registrationRoute ctx db ⟨some tn, some d, some ms⟩).orderAmounts =
      [ms.length * ctx.chargePerMember * 100] ∧
    (registrationRoute ctx db ⟨some tn, some d, some ms⟩).resp.rdata =
      some ⟨db.nextId, tn, d, ms.length,
        ⟨oid, ms.length * ctx.chargePerMember,
          ms.length * ctx.chargePerMember * 100, "INR", ctx.chargePerMember⟩⟩ ∧
    ∃ t : Team,
      (registrationRoute ctx db ⟨some tn, some d, some ms⟩).db.teams =
        db.teams ++ [t] ∧
      t.amount_in_paise = ms.length * ctx.chargePerMember * 100 ∧
      t.payment_status = "Initiated" := by
  refine ⟨?_, ?_, ⟨⟨db.nextId, tn, d, ms.length, oid, none,
      ms.length * ctx.chargePerMember * 100, "Initiated", some ctx.now, none⟩,
      ?_, rfl, rfl⟩⟩
  · simp [registrationRoute, hval, hteam, hemail, hconf, ho]
  · simp [registrationRoute, hval, hteam, hemail, hconf, ho]
  · simp [registrationRoute, hval, hteam, hemail, hconf, ho]

/-- Witness for C6, the concrete spec scenario: team Alpha, domain Web Dev,
one Team Lead member, chargePerMember 100: the order is created for 10000
paise, the response reports amount 100 rupees and amountInPaise 10000, and
the stored team has amount_in_paise 10000 with status Initiated. -/
theorem registration_amount_formula_witness :
    (registrationRoute ⟨100, true, .ok "order_A", "production", "t0"⟩ Db.init
      ⟨some "Alpha", some "Web Dev",
        some [⟨some "A", some "a@x.com", some "9", some "C", some "Team Lead"⟩]⟩).orderAmounts
      = [10000] ∧
    (registrationRoute ⟨100, true, .ok "order_A", "production", "t0"⟩ Db.init
      ⟨some "Alpha", some "Web Dev",
        some [⟨some "A", some "a@x.com", some "9", some "C", some "Team Lead"⟩]⟩).resp.rdata
      = some ⟨1, "Alpha", "Web Dev", 1, ⟨"order_A", 100, 10000, "INR", 100⟩⟩ ∧
    ∃ t : Team,
      (registrationRoute ⟨100, true, .ok "order_A", "production", "t0"⟩ Db.init
        ⟨some "Alpha", some "Web Dev",
          some [⟨some "A", some "a@x.com", some "9", some "C", some "Team Lead"⟩]⟩).db.teams
        = Db.init.teams ++ [t] ∧
      t.amount_in_paise = 10000 ∧ t.payment_status = "Initiated" :=
  registration_amount_formula
    ⟨100, true, .ok "order_A", "production", "t0"⟩ Db.init
    "Alpha" "Web Dev"
    [⟨some "A", some "a@x.com", some "9", some "C", some "Team Lead"⟩]
    "order_A" (by decide) (by decide) (by decide) (by decide) rfl

/-- The member-ownership invariant: every stored member row belongs to a
team whose payment status reached Completed. -/
def memberInv (db : Db) : Prop :=
  ∀ r ∈ db.registrations, ∃ t ∈ db.teams,
    t.id = r.team_id ∧ t.payment_status = "Completed"

/-- The registration handler never touches member rows and only ever appends
team rows. -/
theorem registrationRoute_db_shape (ctx : RegCtx) (db : Db) (req : RegReq) :
    (registrationRoute ctx db req).db.registrations = db.registrations ∧
    ∃ l, (registrationRoute ctx db req).db.teams = db.teams ++ l := by
  unfold registrationRoute
  dsimp only
  repeat' split
  all_goals
    first
    | exact ⟨rfl, [], (List.append_nil _).symm⟩
    | exact ⟨rfl, _, rfl⟩

/-- The registration handler preserves the member-ownership invariant. -/
theorem registrationRoute_preserves_memberInv (ctx : RegCtx) (db : Db)
    (req : RegReq) (h : memberInv db) :
    memberInv (registrationRoute ctx db req).db := by
  obtain ⟨hr, l, ht⟩ := registrationRoute_db_shape ctx db req
  intro r hrm
  rw [hr] at hrm
  obtain ⟨t, htm, hid, hst⟩ := h r hrm
  exact ⟨t, by rw [ht]; exact List.mem_append_left l htm, hid, hst⟩

/-- The conditional update keeps every already-Completed row unchanged in
place. -/
theorem completed_mem_after_update {db : Db} {tid : Int} (pid now : String)
    {t : Team} (ht : t ∈ db.teams) (hst : t.payment_status = "Completed") :
    t ∈ (updateTeamsCond tid pid now db.teams).1 := by
  simp only [updateTeamsCond]
  refine List.mem_map.mpr ⟨t, ht, ?_⟩
  rw [if_neg]
  intro hmm
  simp only [updMatches, Bool.and_eq_true, beq_iff_eq] at hmm
  rw [hst] at hmm
  exact absurd hmm.2 (by decide)

/-- The finalization tail preserves the member-ownership invariant: member
rows are only inserted under a positive affected-row count, in which case a
row with the given id was just completed. -/
theorem finalizeTeam_preserves_memberInv (ctx : VerifyCtx) (db : Db)
    (tid : Int) (pid oid : String) (ms : List VMember) (h : memberInv db) :
    memberInv (finalizeTeam ctx db tid pid oid ms).db := by
  unfold finalizeTeam
  dsimp only
  have hold : ∀ t ∈ db.teams, t.payment_status = "Completed" →
      t ∈ (updateTeamsCond tid pid ctx.now db.teams).1 :=
    fun t ht hst => completed_mem_after_update pid ctx.now ht hst
  have hdb1 : memberInv { db with teams := (updateTeamsCond tid pid ctx.now db.teams).1 } := by
    intro r hr
    obtain ⟨t, htm, hid, hst⟩ := h r hr
    exact ⟨t, hold t htm hst, hid, hst⟩
  by_cases hc : ((updateTeamsCond tid pid ctx.now db.teams).2 == 0) = true
  · rw [if_pos hc]
    exact hdb1
  · rw [if_neg hc]
    have hpos : 0 < (db.teams.filter (updMatches tid)).length := by
      simp only [updateTeamsCond] at hc
      simp only [beq_iff_eq] at hc
      omega
    obtain ⟨s, hs⟩ := List.exists_mem_of_length_pos hpos
    have hsmem := (List.mem_filter.mp hs).1
    have hsm := (List.mem_filter.mp hs).2
    have hsid : s.id = tid := by
      have := hsm
      simp only [updMatches, Bool.and_eq_true, beq_iff_eq] at this
      exact this.1
    have hwit : completeTeam pid ctx.now s ∈ (updateTeamsCond tid pid ctx.now db.teams).1 := by
      simp only [updateTeamsCond]
      exact List.mem_map.mpr ⟨s, hsmem, by rw [if_pos hsm]⟩
    cases hins : insertRegistrations
        { db with teams := (updateTeamsCond tid pid ctx.now db.teams).1 }
        (ms.map (toRegRow tid)) with
    | error msg =>
      dsimp only
      by_cases hj : (jsIncludes msg "duplicate key value" || jsIncludes msg "unique") = true
      · rw [if_pos hj]; exact hdb1
      · rw [if_neg hj]; exact hdb1
    | ok db2 =>
      dsimp only
      have hdb2 := insertRegistrations_ok_db hins
      subst hdb2
      intro r hr
      rcases List.mem_append.mp hr with hro | hrn
      · obtain ⟨t, htm, hid, hst⟩ := h r hro
        exact ⟨t, hold t htm hst, hid, hst⟩
      · obtain ⟨m, hmm, rfl⟩ := List.mem_map.mp hrn
        refine ⟨completeTeam pid ctx.now s, hwit, ?_, rfl⟩
        simpa [completeTeam, toRegRow] using hsid

/-- Every branch of the verify handler either leaves the store untouched or
hands over to the finalization tail. -/
theorem verifyPayment_db_cases (ctx : VerifyCtx) (db : Db) (req : VerifyReq) :
    (verifyPayment ctx db req).db = db ∨
    ∃ tid pid oid ms,
      (verifyPayment ctx db req).db = (finalizeTeam ctx db tid pid oid ms).db := by
  unfold verifyPayment
  dsimp only
  repeat' split
  all_goals first
    | exact Or.inl rfl
    | exact Or.inr ⟨_, _, _, _, rfl⟩

/-- The verify handler preserves the member-ownership invariant. -/
theorem verifyPayment_preserves_memberInv (ctx : VerifyCtx) (db : Db)
    (req : VerifyReq) (h : memberInv db) :
    memberInv (verifyPayment ctx db req).db := by
  rcases verifyPayment_db_cases ctx db req with hd | ⟨tid, pid, oid, ms, hd⟩
  · rw [hd]; exact h
  · rw [hd]; exact finalizeTeam_preserves_memberInv ctx db tid pid oid ms h

/-- The stores reachable from the empty deployment through the two mounted
write endpoints, with arbitrary request bodies and ambient configuration at
each step. -/
inductive Reachable : Db → Prop
  | init : Reachable Db.init
  | reg (ctx : RegCtx) (req : RegReq) {db : Db} :
      Reachable db → Reachable (registrationRoute ctx db req).db
  | verify (ctx : VerifyCtx) (req : VerifyReq) {db : Db} :
      Reachable db → Reachable (verifyPayment ctx db req).db

/-- C3: in every reachable store, member rows exist only for teams whose
payment status reached Completed — registration inserts teams without
members, and the verify handler inserts the member batch only after its
conditional Initiated-to-Completed update matched a row. -/
theorem reachable_members_only_completed (db : Db) (h : Reachable db) :
    memberInv db := by
  induction h with
  | init => intro r hr; cases hr
  | reg ctx req _ ih => exact registrationRoute_preserves_memberInv ctx _ req ih
  | verify ctx req _ ih => exact verifyPayment_preserves_memberInv ctx _ req ih

/-- Witness for C3: the invariant at the concrete store reached by one
registration followed by one successful verification (which does insert a
member row for the completed team). -/
theorem reachable_members_only_completed_witness :
    memberInv (verifyPayment ⟨fun k m => k ++ ":" ++ m, "sec", "production", "t1"⟩
      (registrationRoute ⟨100, true, .ok "order_A", "production", "t0"⟩ Db.init
        ⟨some "Alpha", some "Web Dev",
          some [⟨some "A", some "a@x.com", some "9", some "C", some "Team Lead"⟩]⟩).db
      ⟨some 1, some "pay_1", some "order_A", some "sec:order_A|pay_1",
        some [⟨"A", "a@x.com", "9", "C", "Team Lead", some "R1", none⟩]⟩).db :=
  reachable_members_only_completed _
    (Reachable.verify _ _ (Reachable.reg _ _ Reachable.init))

end Zignasa
